import Mathlib

/-!
Verification of the core routines of `gps-astro.py`: the smoothing filter,
GPRMC telemetry parsing, the circumpolar fallback of the sun rise/set finder,
the solar-term coarse scan and its per-year cache, the moon-phase
classification, and the one-shot event firing logic.

Python floats are modelled as exact rationals (`ℚ`); Python's `%` on floats
(sign of the divisor) is `pymod` and `int()` truncation toward zero is
`pytrunc`.  Astronomy queries that go through the Skyfield ephemeris are
abstracted as function parameters (`Option`-valued where the source can fail),
so every theorem below holds for every possible behaviour of the ephemeris.
-/

namespace GpsAstro

/-- Python float `%` with a positive modulus: `x % m = x - m * ⌊x / m⌋`,
which lies in `[0, m)` for `m > 0`. -/
def pymod (x m : ℚ) : ℚ := x - m * ⌊x / m⌋

/-- Python `int()` applied to a float: truncation toward zero. -/
def pytrunc (x : ℚ) : ℤ := if 0 ≤ x then ⌊x⌋ else -⌊-x⌋

theorem pymod_nonneg (x : ℚ) {m : ℚ} (hm : 0 < m) : 0 ≤ pymod x m := by
  have h := Int.floor_le (x / m)
  have : m * ⌊x / m⌋ ≤ m * (x / m) := by
    exact mul_le_mul_of_nonneg_left h (le_of_lt hm)
  have hxm : m * (x / m) = x := by field_simp
  simp only [pymod]
  linarith [hxm ▸ this]

theorem pymod_lt (x : ℚ) {m : ℚ} (hm : 0 < m) : pymod x m < m := by
  have h := Int.lt_floor_add_one (x / m)
  have : m * (x / m) < m * (⌊x / m⌋ + 1) := by
    exact mul_lt_mul_of_pos_left h hm
  have hxm : m * (x / m) = x := by field_simp
  simp only [pymod]
  nlinarith [hxm ▸ this]

/-! ### SmoothingFilter (`add_sample` / `average`, source lines 902–911) -/

/-- The smoothing window width `SMOOTH_WINDOW` (seconds), source line 44. -/
def SMOOTH_WINDOW : ℚ := 20

/-- Model of `add_sample` (source lines 902–906): append `(now, value)` at the back of
the channel history, then evict from the front every entry whose timestamp is
more than `SMOOTH_WINDOW` seconds older than `now`.  The history is kept
oldest-first, mirroring the source's deque. -/
def add_sample (history : List (ℚ × ℚ)) (now value : ℚ) : List (ℚ × ℚ) :=
  (history ++ [(now, value)]).dropWhile (fun e => decide (now - e.1 > SMOOTH_WINDOW))

/-- Model of `average` (source lines 908–911): the arithmetic mean of the retained
values, or `0` when the channel is empty. -/
def average (history : List (ℚ × ℚ)) : ℚ :=
  if history = [] then 0 else (history.map Prod.snd).sum / history.length

theorem add_sample_nil (now value : ℚ) : add_sample [] now value = [(now, value)] := by
  simp only [add_sample, List.nil_append, List.dropWhile_cons, List.dropWhile_nil]
  rw [if_neg]
  simp only [decide_eq_true_eq, SMOOTH_WINDOW]
  norm_num

theorem add_sample_cons_drop (history : List (ℚ × ℚ)) (a : ℚ × ℚ) (now value : ℚ)
    (ha : now - a.1 > SMOOTH_WINDOW) :
    add_sample (a :: history) now value = add_sample history now value := by
  simp only [add_sample, List.cons_append, List.dropWhile_cons]
  rw [if_pos (decide_eq_true ha)]

theorem add_sample_cons_keep (history : List (ℚ × ℚ)) (a : ℚ × ℚ) (now value : ℚ)
    (ha : ¬ now - a.1 > SMOOTH_WINDOW) :
    add_sample (a :: history) now value = a :: (history ++ [(now, value)]) := by
  simp only [add_sample, List.cons_append, List.dropWhile_cons]
  rw [if_neg (by simpa using ha)]

theorem add_sample_bound_aux (now value : ℚ) :
    ∀ (history : List (ℚ × ℚ)),
      (∀ e ∈ history, e.1 ≤ now) →
      history.Pairwise (fun a b => a.1 ≤ b.1) →
      (∀ e ∈ add_sample history now value, now - e.1 ≤ SMOOTH_WINDOW) ∧
        add_sample history now value ≠ [] := by
  intro history
  induction history with
  | nil =>
    intro _ _
    rw [add_sample_nil]
    constructor
    · intro e he
      simp only [List.mem_singleton] at he
      rw [he]
      simp only [SMOOTH_WINDOW]
      norm_num
    · simp
  | cons a l ih =>
    intro hle hsort
    by_cases ha : now - a.1 > SMOOTH_WINDOW
    · rw [add_sample_cons_drop l a now value ha]
      exact ih (fun e he => hle e (List.mem_cons_of_mem a he))
        (List.Pairwise.sublist (List.sublist_cons_self a l) hsort)
    · rw [add_sample_cons_keep l a now value ha]
      constructor
      · intro e he
        rcases List.mem_cons.1 he with rfl | he'
        · linarith
        · rcases List.mem_append.1 he' with hl | hv
          · have h1 : a.1 ≤ e.1 := (List.pairwise_cons.1 hsort).1 e hl
            linarith
          · have hv' : e = (now, value) := by simpa using hv
            rw [hv']
            simp only [SMOOTH_WINDOW]
            norm_num
      · simp

/-- C7.  After every insertion into a smoothing channel whose history is
time-ordered with all timestamps at most `now`, no retained entry is older
than the 20-second window relative to the newest timestamp `now`, the
retained history is non-empty, `average` of a non-empty history is the
arithmetic mean of its values while `average [] = 0`; and in the concrete
scenario of samples inserted at t = 0, 5, 10, 15, 20, 25 the entries
contributing at t = 25 are exactly those with timestamp ≥ 5. -/
theorem smoothing_window_bound (history : List (ℚ × ℚ)) (now value : ℚ)
    (hle : ∀ e ∈ history, e.1 ≤ now)
    (hsort : history.Pairwise (fun a b => a.1 ≤ b.1)) :
    (∀ e ∈ add_sample history now value, now - e.1 ≤ SMOOTH_WINDOW) ∧
      add_sample history now value ≠ [] ∧
      average (add_sample history now value) =
        ((add_sample history now value).map Prod.snd).sum /
          (add_sample history now value).length ∧
      average [] = 0 ∧
      (add_sample (add_sample (add_sample (add_sample (add_sample
        (add_sample [] 0 1) 5 2) 10 3) 15 4) 20 5) 25 6).map Prod.fst =
          [5, 10, 15, 20, 25] ∧
      average (add_sample (add_sample (add_sample (add_sample (add_sample
        (add_sample [] 0 1) 5 2) 10 3) 15 4) 20 5) 25 6) = 4 := by
  obtain ⟨h1, h2⟩ := add_sample_bound_aux now value history hle hsort
  refine ⟨h1, h2, ?_, by simp [average], ?_, ?_⟩
  · simp only [average, if_neg h2]
  · norm_num [add_sample, SMOOTH_WINDOW, List.dropWhile_cons, List.dropWhile_nil]
  · norm_num [add_sample, average, SMOOTH_WINDOW, List.dropWhile_cons, List.dropWhile_nil,
      List.cons_ne_nil]

theorem smoothing_window_bound_witness :
    (∀ e ∈ [((0 : ℚ), (7 : ℚ))], e.1 ≤ 25) ∧
      ([((0 : ℚ), (7 : ℚ))] : List (ℚ × ℚ)).Pairwise (fun a b => a.1 ≤ b.1) ∧
      (∀ e ∈ add_sample [((0 : ℚ), (7 : ℚ))] 25 9, 25 - e.1 ≤ SMOOTH_WINDOW) :=
  ⟨by norm_num, by simp,
    (smoothing_window_bound [((0 : ℚ), (7 : ℚ))] 25 9 (by norm_num) (by simp)).1⟩

/-! ### TelemetryIngestor (`parse_gprmc`, source lines 913–936) -/

/-- Split a character list at every comma, keeping empty fields — the
behaviour of Python's `line.split(',')`. -/
def split_commas_aux : List Char → List Char → List String
  | [], acc => [String.mk acc.reverse]
  | c :: rest, acc =>
      if c = ',' then String.mk acc.reverse :: split_commas_aux rest []
      else split_commas_aux rest (c :: acc)

/-- Python's `line.split(',')`. -/
def split_commas (line : String) : List String := split_commas_aux line.toList []

/-- Numeric value of a run of decimal digits. -/
def digitsToNat (l : List Char) : ℕ := l.foldl (fun acc c => 10 * acc + (c.toNat - 48)) 0

/-- Parse of a plain decimal literal: optional sign, integer digits, an
optional dot followed by fraction digits, with at least one digit overall.
Returns the signed mantissa together with the number of fraction digits.
Models Python's `float()` on the decimal literals that occur in GPRMC
fields; the further forms `float()` accepts but a GPRMC field never carries
(scientific notation, `inf`/`nan`, surrounding whitespace) are rejected. -/
def parseDecimal? (s : String) : Option (ℤ × ℕ) :=
  let body := match s.toList with
    | '-' :: rest => ((-1 : ℤ), rest)
    | '+' :: rest => ((1 : ℤ), rest)
    | rest => ((1 : ℤ), rest)
  let intPart := body.2.takeWhile (fun c => c.isDigit)
  match body.2.dropWhile (fun c => c.isDigit) with
  | [] => if intPart = [] then none else some (body.1 * digitsToNat intPart, 0)
  | '.' :: frac =>
      if frac.all (fun c => c.isDigit) ∧ (intPart ≠ [] ∨ frac ≠ []) then
        some (body.1 * (digitsToNat intPart * 10 ^ frac.length + digitsToNat frac),
          frac.length)
      else none
  | _ => none

/-- Python's `float()` as a rational, via `parseDecimal?`. -/
def pyFloat? (s : String) : Option ℚ :=
  (parseDecimal? s).map (fun p => (p.1 : ℚ) / 10 ^ p.2)

/-- The structured fix returned by `parse_gprmc`. -/
structure GprmcFix where
  latitude : ℚ
  longitude : ℚ
  speed : ℚ
  course : ℚ

/-- The body of `parse_gprmc` (source lines 914–936) after the comma split:
require tag `$GPRMC` in field 0 and status `A` in field 2; decode the
`ddmm.mmmm` latitude (field 3) and `dddmm.mmmm` longitude (field 5) as
degrees-plus-minutes with the hemisphere sign from fields 4 and 6, and parse
speed (field 7) and course (field 8).  A missing field (`IndexError`) or a
failed numeric parse (`ValueError`) lands in the source's `except` clause,
returning `None`, modelled by the `none` branches. -/
def parse_gprmc_fields (parts : List String) : Option GprmcFix :=
  if parts.getD 0 ("") ≠ "$GPRMC" then none
  else match parts.get? 2 with
    | none => none
    | some status =>
      if status ≠ "A" then none
      else
        match (parts.get? 3).bind pyFloat?, parts.get? 4,
              (parts.get? 5).bind pyFloat?, parts.get? 6,
              (parts.get? 7).bind pyFloat?, (parts.get? 8).bind pyFloat? with
        | some lat_raw, some lat_dir, some lon_raw, some lon_dir,
            some speed, some course =>
            let lat_deg : ℤ := pytrunc (lat_raw / 100)
            let lat_min : ℚ := pymod lat_raw 100
            let latitude0 : ℚ := (lat_deg : ℚ) + lat_min / 60
            let latitude : ℚ := if lat_dir = "S" then -latitude0 else latitude0
            let lon_deg : ℤ := pytrunc (lon_raw / 100)
            let lon_min : ℚ := pymod lon_raw 100
            let longitude0 : ℚ := (lon_deg : ℚ) + lon_min / 60
            let longitude : ℚ := if lon_dir = "W" then -longitude0 else longitude0
            some ⟨latitude, longitude, speed, course⟩
        | _, _, _, _, _, _ => none

/-- Model of `parse_gprmc` (source lines 913–936). -/
def parse_gprmc (line : String) : Option GprmcFix :=
  parse_gprmc_fields (split_commas line)

/-- C8.  The telemetry parser returns `none` — total, never raising — whenever
the first comma-separated field is not `$GPRMC`, whenever field 2 (the fix
validity flag) is missing or differs from `A`, and whenever numeric parsing of
any required field (latitude, longitude, speed, course) fails or the field is
missing. -/
theorem parse_gprmc_rejects (line : String) :
    ((split_commas line).getD 0 ("") ≠ "$GPRMC" → parse_gprmc line = none) ∧
    ((split_commas line).get? 2 ≠ some ("A") → parse_gprmc line = none) ∧
    (((split_commas line).get? 3).bind pyFloat? = none → parse_gprmc line = none) ∧
    (((split_commas line).get? 5).bind pyFloat? = none → parse_gprmc line = none) ∧
    (((split_commas line).get? 7).bind pyFloat? = none → parse_gprmc line = none) ∧
    (((split_commas line).get? 8).bind pyFloat? = none → parse_gprmc line = none) := by
  refine ⟨fun h => ?_, fun h => ?_, fun h => ?_, fun h => ?_, fun h => ?_, fun h => ?_⟩ <;>
    · simp only [parse_gprmc, parse_gprmc_fields]
      repeat' split
      all_goals first
        | rfl
        | (simp_all; done)
        | (exfalso; simp only [h] at *; simp_all)

theorem parse_gprmc_rejects_witness :
    (split_commas ("$GPXYZ,1,A")).getD 0 ("") ≠ "$GPRMC" ∧
      (split_commas ("$GPRMC,1,V,2,N,3,E,4,5")).get? 2 ≠ some ("A") ∧
      ((split_commas ("$GPRMC,1,A,xx,N,3,E,4,5")).get? 3).bind pyFloat? = none ∧
      parse_gprmc ("$GPXYZ,1,A") = none ∧
      parse_gprmc ("$GPRMC,1,V,2,N,3,E,4,5") = none ∧
      parse_gprmc ("$GPRMC,1,A,xx,N,3,E,4,5") = none := by
  have h1 : (split_commas ("$GPXYZ,1,A")).getD 0 ("") ≠ "$GPRMC" := by
    have : split_commas ("$GPXYZ,1,A") = ["$GPXYZ", "1", "A"] := rfl
    rw [this]
    simp
  have h2 : (split_commas ("$GPRMC,1,V,2,N,3,E,4,5")).get? 2 ≠ some ("A") := by
    have : split_commas ("$GPRMC,1,V,2,N,3,E,4,5") =
        ["$GPRMC", "1", "V", "2", "N", "3", "E", "4", "5"] := rfl
    rw [this]
    simp
  have h3 : ((split_commas ("$GPRMC,1,A,xx,N,3,E,4,5")).get? 3).bind pyFloat? = none := by
    have : split_commas ("$GPRMC,1,A,xx,N,3,E,4,5") =
        ["$GPRMC", "1", "A", "xx", "N", "3", "E", "4", "5"] := rfl
    rw [this]
    have hx : pyFloat? ("xx") = none := rfl
    simp [hx]
  exact ⟨h1, h2, h3, (parse_gprmc_rejects _).1 h1, (parse_gprmc_rejects _).2.1 h2,
    (parse_gprmc_rejects _).2.2.1 h3⟩

/-- C9.  Parsing the telemetry line with status `A`, latitude field 3723.2475
with hemisphere `N`, longitude field 12158.3416 with hemisphere `W`, speed 10.0
and course 090.0 yields exactly the decoding `degrees + minutes/60` with the
hemisphere sign — latitude `37 + 23.2475/60 ≈ 37.3873°`, longitude
`-(121 + 58.3416/60) ≈ -121.9724°`, speed 10 and course 90. -/
theorem parse_gprmc_example :
    parse_gprmc ("$GPRMC,123519,A,3723.2475,N,12158.3416,W,10.0,090.0,230394,003.1,W") =
      some ⟨37 + 23.2475 / 60, -(121 + 58.3416 / 60), 10, 90⟩ ∧
    |(37 + 23.2475 / 60 : ℚ) - 37.3873| < 1 / 1000 ∧
    |(-(121 + 58.3416 / 60) : ℚ) + 121.9724| < 1 / 1000 := by
  refine ⟨?_, by rw [abs_lt]; constructor <;> norm_num, by rw [abs_lt]; constructor <;> norm_num⟩
  have hsplit : split_commas ("$GPRMC,123519,A,3723.2475,N,12158.3416,W,10.0,090.0,230394,003.1,W") =
      ["$GPRMC", "123519", "A", "3723.2475", "N", "12158.3416", "W",
        "10.0", "090.0", "230394", "003.1", "W"] := rfl
  have h3 : pyFloat? ("3723.2475") = some ((37232475 : ℚ) / 10 ^ 4) := by
    have h : parseDecimal? ("3723.2475") = some (37232475, 4) := rfl
    simp only [pyFloat?, h, Option.map_some']
    norm_num
  have h5 : pyFloat? ("12158.3416") = some ((121583416 : ℚ) / 10 ^ 4) := by
    have h : parseDecimal? ("12158.3416") = some (121583416, 4) := rfl
    simp only [pyFloat?, h, Option.map_some']
    norm_num
  have h7 : pyFloat? ("10.0") = some (10 : ℚ) := by
    have h : parseDecimal? ("10.0") = some (100, 1) := rfl
    simp only [pyFloat?, h, Option.map_some']
    norm_num
  have h8 : pyFloat? ("090.0") = some (90 : ℚ) := by
    have h : parseDecimal? ("090.0") = some (900, 1) := rfl
    simp only [pyFloat?, h, Option.map_some']
    norm_num
  have hlatd : pytrunc ((37232475 : ℚ) / 10 ^ 4 / 100) = 37 := by
    rw [pytrunc, if_pos (by norm_num)]
    norm_num [Int.floor_eq_iff]
  have hlatm : pymod ((37232475 : ℚ) / 10 ^ 4) 100 = 23.2475 := by
    have h : ⌊(37232475 : ℚ) / 10 ^ 4 / 100⌋ = 37 := by norm_num [Int.floor_eq_iff]
    rw [pymod, h]
    norm_num
  have hlond : pytrunc ((121583416 : ℚ) / 10 ^ 4 / 100) = 121 := by
    rw [pytrunc, if_pos (by norm_num)]
    norm_num [Int.floor_eq_iff]
  have hlonm : pymod ((121583416 : ℚ) / 10 ^ 4) 100 = 58.3416 := by
    have h : ⌊(121583416 : ℚ) / 10 ^ 4 / 100⌋ = 121 := by norm_num [Int.floor_eq_iff]
    rw [pymod, h]
    norm_num
  rw [parse_gprmc, hsplit]
  simp only [parse_gprmc_fields, List.getD, List.get?, h3, h5, h7, h8, Option.some_bind,
    hlatd, hlatm, hlond, hlonm]
  norm_num [GprmcFix.mk.injEq]
  decide

/-- C10.  The parser performs no range validation: a line with tag `$GPRMC`,
status `A` and all-numeric fields whose latitude field 8999.9999 has a minutes
part ≥ 60 is accepted, yielding a latitude above 90° (and with longitude field
17999.9999, a longitude above 180°). -/
theorem parse_gprmc_no_range_validation :
    parse_gprmc ("$GPRMC,0,A,8999.9999,N,17999.9999,E,1.0,2.0") =
      some ⟨89 + 99.9999 / 60, 179 + 99.9999 / 60, 1, 2⟩ ∧
    (90 : ℚ) < 89 + 99.9999 / 60 ∧ (180 : ℚ) < 179 + 99.9999 / 60 := by
  refine ⟨?_, by norm_num, by norm_num⟩
  have hsplit : split_commas ("$GPRMC,0,A,8999.9999,N,17999.9999,E,1.0,2.0") =
      ["$GPRMC", "0", "A", "8999.9999", "N", "17999.9999", "E", "1.0", "2.0"] := rfl
  have h3 : pyFloat? ("8999.9999") = some ((89999999 : ℚ) / 10 ^ 4) := by
    have h : parseDecimal? ("8999.9999") = some (89999999, 4) := rfl
    simp only [pyFloat?, h, Option.map_some']
    norm_num
  have h5 : pyFloat? ("17999.9999") = some ((179999999 : ℚ) / 10 ^ 4) := by
    have h : parseDecimal? ("17999.9999") = some (179999999, 4) := rfl
    simp only [pyFloat?, h, Option.map_some']
    norm_num
  have h7 : pyFloat? ("1.0") = some (1 : ℚ) := by
    have h : parseDecimal? ("1.0") = some (10, 1) := rfl
    simp only [pyFloat?, h, Option.map_some']
    norm_num
  have h8 : pyFloat? ("2.0") = some (2 : ℚ) := by
    have h : parseDecimal? ("2.0") = some (20, 1) := rfl
    simp only [pyFloat?, h, Option.map_some']
    norm_num
  have hlatd : pytrunc ((89999999 : ℚ) / 10 ^ 4 / 100) = 89 := by
    rw [pytrunc, if_pos (by norm_num)]
    norm_num [Int.floor_eq_iff]
  have hlatm : pymod ((89999999 : ℚ) / 10 ^ 4) 100 = 99.9999 := by
    have h : ⌊(89999999 : ℚ) / 10 ^ 4 / 100⌋ = 89 := by norm_num [Int.floor_eq_iff]
    rw [pymod, h]
    norm_num
  have hlond : pytrunc ((179999999 : ℚ) / 10 ^ 4 / 100) = 179 := by
    rw [pytrunc, if_pos (by norm_num)]
    norm_num [Int.floor_eq_iff]
  have hlonm : pymod ((179999999 : ℚ) / 10 ^ 4) 100 = 99.9999 := by
    have h : ⌊(179999999 : ℚ) / 10 ^ 4 / 100⌋ = 179 := by norm_num [Int.floor_eq_iff]
    rw [pymod, h]
    norm_num
  rw [parse_gprmc, hsplit]
  simp only [parse_gprmc_fields, List.getD, List.get?, h3, h5, h7, h8, Option.some_bind,
    hlatd, hlatm, hlond, hlonm]
  norm_num [GprmcFix.mk.injEq]
  decide

/-! ### RiseSetTransitFinder fallback (`calculate_sun_events_skyfield`,
source lines 745–816, fallback branch lines 793–804) -/

/-- The no-rise-no-set fallback of `calculate_sun_events_skyfield` (source
lines 793–804): disambiguate using the sun altitude at local noon and local
midnight, each `none` when `sun_alt_az_skyfield` failed.  Returns the
(sunrise, sunset) sentinel pair: `极昼` (always up) when both altitudes are
positive, `极夜` (always down) when both are negative, `计算错误`
(computation error) otherwise. -/
def classify_no_sun_events (alt_noon alt_midn : Option ℚ) : String × String :=
  match alt_noon, alt_midn with
  | some n, some m =>
      if n > 0 ∧ m > 0 then ("极昼", "极昼")
      else if n < 0 ∧ m < 0 then ("极夜", "极夜")
      else ("计算错误", "计算错误")
  | _, _ => ("计算错误", "计算错误")

/-- The sentinel returned by `calculate_sun_events_skyfield` when the
ephemeris model is not loaded (source line 750). -/
def EPHEMERIS_UNAVAILABLE : String := "未加载"

/-- C2 counterexample: with both altitudes successfully evaluated but of
mixed signs (noon +1°, midnight −1°), the fallback still returns the
computation-error sentinel, refuting "a computation-error sentinel exactly
when the altitude could not be evaluated". -/
theorem classify_no_sun_events_counterexample :
    ¬ (((classify_no_sun_events (some 1) (some (-1))).1 = "计算错误") ↔
        ((some (1 : ℚ)) = none ∨ (some ((-1 : ℚ))) = none)) := by
  intro h
  have hres : (classify_no_sun_events (some 1) (some (-1))).1 = "计算错误" := by
    rw [classify_no_sun_events]
    rw [if_neg (by norm_num), if_neg (by norm_num)]
  rcases h.1 hres with hc | hc <;> exact Option.noConfusion hc

/-- C2 (amended).  In the no-rise-no-set fallback: the always-up sentinel is
returned exactly when both altitudes were evaluated and are positive, the
always-down sentinel exactly when both were evaluated and are negative, and
the computation-error sentinel exactly when an altitude could not be
evaluated or the evaluated pair fails both circumpolar tests (mixed signs or
a zero altitude); the two fallback components agree, the fallback never
returns the ephemeris-unavailable sentinel, and the three sentinels are
pairwise distinct and distinct from the ephemeris-unavailable one. -/
theorem classify_no_sun_events_spec (alt_noon alt_midn : Option ℚ) :
    ((classify_no_sun_events alt_noon alt_midn).1 = "极昼" ↔
      ∃ n m, alt_noon = some n ∧ alt_midn = some m ∧ 0 < n ∧ 0 < m) ∧
    ((classify_no_sun_events alt_noon alt_midn).1 = "极夜" ↔
      ∃ n m, alt_noon = some n ∧ alt_midn = some m ∧ n < 0 ∧ m < 0) ∧
    ((classify_no_sun_events alt_noon alt_midn).1 = "计算错误" ↔
      (alt_noon = none ∨ alt_midn = none ∨
        ∃ n m, alt_noon = some n ∧ alt_midn = some m ∧
          ¬(0 < n ∧ 0 < m) ∧ ¬(n < 0 ∧ m < 0))) ∧
    (classify_no_sun_events alt_noon alt_midn).2 =
      (classify_no_sun_events alt_noon alt_midn).1 ∧
    (classify_no_sun_events alt_noon alt_midn).1 ≠ EPHEMERIS_UNAVAILABLE ∧
    (("极昼" : String) ≠ "极夜" ∧ ("极昼" : String) ≠ "计算错误" ∧
      ("极夜" : String) ≠ "计算错误" ∧ ("极昼" : String) ≠ EPHEMERIS_UNAVAILABLE ∧
      ("极夜" : String) ≠ EPHEMERIS_UNAVAILABLE ∧
      ("计算错误" : String) ≠ EPHEMERIS_UNAVAILABLE) := by
  have d1 : ("极昼" : String) ≠ "极夜" := by decide
  have d2 : ("极昼" : String) ≠ "计算错误" := by decide
  have d3 : ("极夜" : String) ≠ "计算错误" := by decide
  have d4 : ("极昼" : String) ≠ EPHEMERIS_UNAVAILABLE := by decide
  have d5 : ("极夜" : String) ≠ EPHEMERIS_UNAVAILABLE := by decide
  have d6 : ("计算错误" : String) ≠ EPHEMERIS_UNAVAILABLE := by decide
  have s1 := d1.symm
  have s2 := d2.symm
  have s3 := d3.symm
  rcases alt_noon with _ | n <;> rcases alt_midn with _ | m
  · simp [classify_no_sun_events, EPHEMERIS_UNAVAILABLE, d1, d2, d3, d4, d5, d6, s1, s2, s3]
  · simp [classify_no_sun_events, EPHEMERIS_UNAVAILABLE, d1, d2, d3, d4, d5, d6, s1, s2, s3]
  · simp [classify_no_sun_events, EPHEMERIS_UNAVAILABLE, d1, d2, d3, d4, d5, d6, s1, s2, s3]
  · simp only [classify_no_sun_events]
    split_ifs with hp hn
    · have hn1 : ¬ n < 0 := by linarith [hp.1]
      simp [EPHEMERIS_UNAVAILABLE, d1, d2, d3, d4, d5, d6, s1, s2, s3, hp.1, hp.2, hn1]
    · have hp1 : ¬ 0 < n := by linarith [hn.1]
      simp [EPHEMERIS_UNAVAILABLE, d1, d2, d3, d4, d5, d6, s1, s2, s3, hn.1, hn.2, hp1]
    · simp [EPHEMERIS_UNAVAILABLE, d1, d2, d3, d4, d5, d6, s1, s2, s3, hp, hn]
      exact ⟨fun h0 => not_lt.1 fun hm => hp ⟨h0, hm⟩,
        fun h0 => not_lt.1 fun hm => hn ⟨h0, hm⟩⟩

theorem classify_no_sun_events_spec_witness :
    (classify_no_sun_events (some 3) (some 2)).1 = "极昼" :=
  (classify_no_sun_events_spec (some 3) (some 2)).1.2 ⟨3, 2, rfl, rfl, by norm_num, by norm_num⟩

/-! ### SolarTermCalculator coarse scan (`calculate_solar_terms`,
source lines 216–305) -/

/-- The 24 solar-term target longitudes with their names, in the insertion
order of `SOLAR_TERM_LONGITUDES` (source lines 226–235). -/
def SOLAR_TERM_LONGITUDES : List (ℚ × String) :=
  [(315, "立春"), (330, "雨水"), (345, "惊蛰"), (0, "春分"), (15, "清明"),
   (30, "谷雨"), (45, "立夏"), (60, "小满"), (75, "芒种"), (90, "夏至"),
   (105, "小暑"), (120, "大暑"), (135, "立秋"), (150, "处暑"), (165, "白露"),
   (180, "秋分"), (195, "寒露"), (210, "霜降"), (225, "立冬"), (240, "小雪"),
   (255, "大雪"), (270, "冬至"), (285, "小寒"), (300, "大寒")]

/-- The per-target crossing test of the coarse daily scan in
`calculate_solar_terms` (source lines 255–271): `prev` is the previous
day's sampled solar ecliptic longitude, `cur` the current day's, `target`
one of the 24 term longitudes. -/
def solar_term_crossed (prev cur target : ℚ) : Bool :=
  if prev > 350 ∧ cur < 10 then decide (target = 0 ∨ target ≥ 345)
  else if prev < cur then decide (prev ≤ target ∧ target ≤ cur)
  else decide (target ≥ prev ∨ target ≤ cur)

/-- C3 counterexample: the consecutive pair (prev 349°, cur 1°) crosses the
360°→0° wrap but does not meet the `prev > 350 ∧ cur < 10` thresholds, yet
target 0° is still flagged — through a third, descending-pair branch — even
though 0° does not lie between 349° and 1°.  Hence the stated wrap rule is
not the only special-case treatment of the discontinuity in the coarse
scan. -/
theorem solar_term_crossed_counterexample :
    solar_term_crossed 349 1 0 = true ∧
      ¬((349 : ℚ) > 350 ∧ (1 : ℚ) < 10) ∧
      ¬((349 : ℚ) ≤ 0 ∧ (0 : ℚ) ≤ 1) := by
  refine ⟨?_, by norm_num, by norm_num⟩
  rw [solar_term_crossed, if_neg (by norm_num), if_neg (by norm_num),
    decide_eq_true_eq]
  norm_num

/-- C3 (amended).  In the coarse daily scan: for every pair meeting the wrap
thresholds (`prev > 350` and `cur < 10`) exactly the targets that are 0° or
≥ 345° are flagged — concretely, for the pair (355°, 5°) the flagged subset
of the 24 targets is `[345°, 0°]` — for ascending pairs outside the wrap
thresholds plain betweenness `prev ≤ t ≤ cur` is used, and for every other
(descending) pair a second wrap-aware rule flags exactly the targets with
`t ≥ prev` or `t ≤ cur`; so the stated rule is not the only special-case
treatment of the discontinuity. -/
theorem solar_term_crossed_spec (prev cur target : ℚ) :
    (prev > 350 ∧ cur < 10 →
      (solar_term_crossed prev cur target = true ↔ (target = 0 ∨ 345 ≤ target))) ∧
    (¬(prev > 350 ∧ cur < 10) → prev < cur →
      (solar_term_crossed prev cur target = true ↔ (prev ≤ target ∧ target ≤ cur))) ∧
    (¬(prev > 350 ∧ cur < 10) → ¬(prev < cur) →
      (solar_term_crossed prev cur target = true ↔ (prev ≤ target ∨ target ≤ cur))) ∧
    ((SOLAR_TERM_LONGITUDES.map Prod.fst).filter
        (fun t => solar_term_crossed 355 5 t) = [345, 0]) := by
  refine ⟨fun h => ?_, fun h1 h2 => ?_, fun h1 h2 => ?_, ?_⟩
  · rw [solar_term_crossed, if_pos h, decide_eq_true_eq]
  · rw [solar_term_crossed, if_neg h1, if_pos h2, decide_eq_true_eq]
  · rw [solar_term_crossed, if_neg h1, if_neg h2, decide_eq_true_eq]
  · norm_num [SOLAR_TERM_LONGITUDES, solar_term_crossed, List.filter]

theorem solar_term_crossed_spec_witness :
    ((355 : ℚ) > 350 ∧ (5 : ℚ) < 10) ∧
      (solar_term_crossed 355 5 345 = true ↔ ((345 : ℚ) = 0 ∨ (345 : ℚ) ≤ 345)) :=
  ⟨by norm_num, (solar_term_crossed_spec 355 5 345).1 (by norm_num)⟩

/-! ### MoonPhaseCalculator (`calculate_moon_phase_de421`, source lines 493–565) -/

/-- The longitude difference driving the phase (source line 524):
`(moon_lon - sun_lon) % 360` with Python's float `%`. -/
def lon_diff (moon_lon sun_lon : ℚ) : ℚ := pymod (moon_lon - sun_lon) 360

/-- The source's `phase_ratio` (line 526): `lon_diff / 360`. -/
def phase_fraction (moon_lon sun_lon : ℚ) : ℚ := lon_diff moon_lon sun_lon / 360

/-- The waxing/waning trend arrow (source lines 534–539), as a function of
the phase ratio. -/
def moon_trend (r : ℚ) : String :=
  if r < 0.5 then ("↑") else if r > 0.5 then ("↓") else ("—")

/-- The phase-name chain of `calculate_moon_phase_de421` (source lines
542–559), as a function of the phase ratio. -/
def moon_phase_name (r : ℚ) : String :=
  if r < 0.0625 then ("新月")
  else if r < 0.1875 then ("娥眉月")
  else if r < 0.3125 then ("上弦月")
  else if r < 0.4375 then ("盈凸月")
  else if r < 0.5625 then ("满月")
  else if r < 0.6875 then ("亏凸月")
  else if r < 0.8125 then ("下弦月")
  else if r < 0.9375 then ("残月")
  else ("新月")

/-- Index of the branch of the phase-name chain taken for ratio `r`. -/
def phase_bucket (r : ℚ) : ℕ :=
  if r < 0.0625 then 0
  else if r < 0.1875 then 1
  else if r < 0.3125 then 2
  else if r < 0.4375 then 3
  else if r < 0.5625 then 4
  else if r < 0.6875 then 5
  else if r < 0.8125 then 6
  else if r < 0.9375 then 7
  else 8

/-- The spec-side bucket intervals: `in_phase_bucket j r` states that `r`
lies in the `j`-th of the nine threshold intervals claimed to partition
`[0,1)` (the first and the last both carry the name 新月, giving the 8
distinct phase buckets). -/
def in_phase_bucket (j : ℕ) (r : ℚ) : Prop :=
  match j with
  | 0 => 0 ≤ r ∧ r < 0.0625
  | 1 => 0.0625 ≤ r ∧ r < 0.1875
  | 2 => 0.1875 ≤ r ∧ r < 0.3125
  | 3 => 0.3125 ≤ r ∧ r < 0.4375
  | 4 => 0.4375 ≤ r ∧ r < 0.5625
  | 5 => 0.5625 ≤ r ∧ r < 0.6875
  | 6 => 0.6875 ≤ r ∧ r < 0.8125
  | 7 => 0.8125 ≤ r ∧ r < 0.9375
  | 8 => 0.9375 ≤ r ∧ r < 1
  | _ => False

/-- The names of the nine chain branches, in order. -/
def PHASE_NAMES : List String :=
  ["新月", "娥眉月", "上弦月", "盈凸月", "满月", "亏凸月", "下弦月", "残月", "新月"]

theorem in_phase_bucket_of_bucket (r : ℚ) (h0 : 0 ≤ r) (h1 : r < 1) :
    in_phase_bucket (phase_bucket r) r := by
  unfold phase_bucket
  split_ifs with g1 g2 g3 g4 g5 g6 g7 g8 <;>
    simp only [in_phase_bucket] <;>
    exact ⟨by linarith, by linarith⟩

theorem in_phase_bucket_unique (r : ℚ) (j : ℕ) (hj : in_phase_bucket j r) :
    j = phase_bucket r := by
  unfold phase_bucket
  rcases j with _ | _ | _ | _ | _ | _ | _ | _ | _ | j
  · simp only [in_phase_bucket] at hj
    rw [if_pos hj.2]
  · simp only [in_phase_bucket] at hj
    rw [if_neg (not_lt.2 hj.1), if_pos hj.2]
  · simp only [in_phase_bucket] at hj
    rw [if_neg (not_lt.2 (by linarith [hj.1])), if_neg (not_lt.2 hj.1), if_pos hj.2]
  · simp only [in_phase_bucket] at hj
    rw [if_neg (not_lt.2 (by linarith [hj.1])), if_neg (not_lt.2 (by linarith [hj.1])),
      if_neg (not_lt.2 hj.1), if_pos hj.2]
  · simp only [in_phase_bucket] at hj
    rw [if_neg (not_lt.2 (by linarith [hj.1])), if_neg (not_lt.2 (by linarith [hj.1])),
      if_neg (not_lt.2 (by linarith [hj.1])), if_neg (not_lt.2 hj.1), if_pos hj.2]
  · simp only [in_phase_bucket] at hj
    rw [if_neg (not_lt.2 (by linarith [hj.1])), if_neg (not_lt.2 (by linarith [hj.1])),
      if_neg (not_lt.2 (by linarith [hj.1])), if_neg (not_lt.2 (by linarith [hj.1])),
      if_neg (not_lt.2 hj.1), if_pos hj.2]
  · simp only [in_phase_bucket] at hj
    rw [if_neg (not_lt.2 (by linarith [hj.1])), if_neg (not_lt.2 (by linarith [hj.1])),
      if_neg (not_lt.2 (by linarith [hj.1])), if_neg (not_lt.2 (by linarith [hj.1])),
      if_neg (not_lt.2 (by linarith [hj.1])), if_neg (not_lt.2 hj.1), if_pos hj.2]
  · simp only [in_phase_bucket] at hj
    rw [if_neg (not_lt.2 (by linarith [hj.1])), if_neg (not_lt.2 (by linarith [hj.1])),
      if_neg (not_lt.2 (by linarith [hj.1])), if_neg (not_lt.2 (by linarith [hj.1])),
      if_neg (not_lt.2 (by linarith [hj.1])), if_neg (not_lt.2 (by linarith [hj.1])),
      if_neg (not_lt.2 hj.1), if_pos hj.2]
  · simp only [in_phase_bucket] at hj
    rw [if_neg (not_lt.2 (by linarith [hj.1])), if_neg (not_lt.2 (by linarith [hj.1])),
      if_neg (not_lt.2 (by linarith [hj.1])), if_neg (not_lt.2 (by linarith [hj.1])),
      if_neg (not_lt.2 (by linarith [hj.1])), if_neg (not_lt.2 (by linarith [hj.1])),
      if_neg (not_lt.2 (by linarith [hj.1])), if_neg (not_lt.2 hj.1)]
  · exact (hj : False).elim

theorem moon_phase_name_eq_bucket_name (r : ℚ) :
    moon_phase_name r = PHASE_NAMES.getD (phase_bucket r) "" := by
  unfold moon_phase_name phase_bucket
  split_ifs <;> rfl

theorem moon_trend_spec (r : ℚ) :
    (moon_trend r = "↑" ↔ r < 1 / 2) ∧ (moon_trend r = "↓" ↔ 1 / 2 < r) ∧
      (moon_trend r = "—" ↔ r = 1 / 2) := by
  unfold moon_trend
  split_ifs with t1 t2
  · exact ⟨iff_of_true rfl (by linarith), iff_of_false (by decide) (by linarith),
      iff_of_false (by decide) (by intro h; rw [h] at t1; linarith)⟩
  · exact ⟨iff_of_false (by decide) (by linarith), iff_of_true rfl (by linarith),
      iff_of_false (by decide) (by intro h; rw [h] at t2; linarith)⟩
  · exact ⟨iff_of_false (by decide) (by linarith), iff_of_false (by decide) (by linarith),
      iff_of_true rfl (by linarith)⟩

/-- C6.  The phase ratio `((moonLon − sunLon) mod 360) / 360` always lies in
`[0,1)`; on that interval every ratio belongs to the bucket selected by the
threshold chain and to no other bucket (the nine threshold intervals
partition `[0,1)`); the assigned name is the selected bucket's name; and the
trend is `↑` iff ratio < 1/2, `↓` iff ratio > 1/2, `—` iff ratio = 1/2. -/
theorem moon_phase_spec (moon_lon sun_lon : ℚ) :
    (0 ≤ phase_fraction moon_lon sun_lon ∧ phase_fraction moon_lon sun_lon < 1) ∧
    (∀ r : ℚ, 0 ≤ r → r < 1 →
      (in_phase_bucket (phase_bucket r) r ∧
        (∀ j, in_phase_bucket j r → j = phase_bucket r) ∧
        moon_phase_name r = PHASE_NAMES.getD (phase_bucket r) "") ∧
      ((moon_trend r = "↑" ↔ r < 1 / 2) ∧ (moon_trend r = "↓" ↔ 1 / 2 < r) ∧
        (moon_trend r = "—" ↔ r = 1 / 2))) := by
  constructor
  · have hn : 0 ≤ lon_diff moon_lon sun_lon := pymod_nonneg _ (by norm_num)
    have hl : lon_diff moon_lon sun_lon < 360 := pymod_lt _ (by norm_num)
    constructor
    · exact div_nonneg hn (by norm_num)
    · rw [phase_fraction, div_lt_one (by norm_num)]
      exact hl
  · intro r h0 h1
    exact ⟨⟨in_phase_bucket_of_bucket r h0 h1, fun j hj => in_phase_bucket_unique r j hj,
      moon_phase_name_eq_bucket_name r⟩, moon_trend_spec r⟩

theorem moon_phase_spec_witness :
    (0 ≤ phase_fraction 100 40 ∧ phase_fraction 100 40 < 1) ∧
      ((0 : ℚ) ≤ 1 / 6 ∧ (1 / 6 : ℚ) < 1) ∧
      in_phase_bucket (phase_bucket (1 / 6)) (1 / 6) := by
  have h := moon_phase_spec 100 40
  exact ⟨h.1, ⟨by norm_num, by norm_num⟩,
    ((h.2 (1 / 6) (by norm_num) (by norm_num)).1).1⟩

/-! ### Solar-term cache (`get_solar_term_info`, source lines 339–358) -/

/-- The module-level solar-term cache (source lines 64–66):
`current_solar_terms` and `last_solar_term_calc_year`. -/
structure SolarTermCacheState where
  current_solar_terms : List (String × ℚ)
  last_solar_term_calc_year : Option ℤ

/-- One query of `get_solar_term_info` (source lines 339–358):
`calc_terms` abstracts `calculate_solar_terms` for the observed year — it
returns the empty list when the yearly computation failed, since the
source's handler (lines 301–305) catches the numeric error and returns
`[]` — and `reminder` abstracts `solar_term_reminder` on a non-empty list.
Returns the info string, the new cache state, and whether
`calculate_solar_terms` was invoked. -/
def get_solar_term_info (calc_terms : ℤ → List (String × ℚ))
    (reminder : List (String × ℚ) → String) (today_year : ℤ)
    (st : SolarTermCacheState) : String × SolarTermCacheState × Bool :=
  if st.last_solar_term_calc_year = some today_year then
    (if st.current_solar_terms ≠ [] then reminder st.current_solar_terms else (""),
      st, false)
  else
    let terms := calc_terms today_year
    (if terms ≠ [] then reminder terms else (""),
      ⟨terms, some today_year⟩, true)

/-- C5 counterexample: when the yearly computation fails (empty list), the
first query of the year still stamps the cache with that year, so a second
query in the same calendar year does not recompute — it serves the cached
failed result (recompute flag `false`), refuting the claimed same-year
retry. -/
theorem get_solar_term_info_counterexample :
    (get_solar_term_info (fun _ => []) (fun _ => "r") 2025 ⟨[], none⟩).2.2 = true ∧
      (get_solar_term_info (fun _ => []) (fun _ => "r") 2025
        ⟨[], none⟩).2.1.current_solar_terms = [] ∧
      (get_solar_term_info (fun _ => []) (fun _ => "r") 2025
        (get_solar_term_info (fun _ => []) (fun _ => "r") 2025 ⟨[], none⟩).2.1).2.2 =
        false := by
  have h1 : get_solar_term_info (fun _ => []) (fun _ => "r") 2025 ⟨[], none⟩ =
      ("", ⟨[], some 2025⟩, true) := by
    rw [get_solar_term_info, if_neg (by simp)]
    simp
  have h2 : get_solar_term_info (fun _ => []) (fun _ => "r") 2025 ⟨[], some 2025⟩ =
      ("", ⟨[], some 2025⟩, false) := by
    rw [get_solar_term_info, if_pos rfl]
    simp
  refine ⟨by rw [h1], by rw [h1], ?_⟩
  rw [h1]
  show (get_solar_term_info (fun _ => []) (fun _ => "r") 2025 ⟨[], some 2025⟩).2.2 = false
  rw [h2]

/-- C5 (amended).  A failure of the yearly solar-term computation is caught
and surfaced as the empty list, which produces the empty info string; but the
cache is stamped with the observed year regardless, so `calculate_solar_terms`
runs exactly when the observed calendar year differs from the cached year —
after any query in year `y`, a further query recomputes if and only if its
observed year differs from `y`, so a failed (empty) result is served until the
calendar year changes. -/
theorem get_solar_term_info_cache_spec (calc_terms : ℤ → List (String × ℚ))
    (reminder : List (String × ℚ) → String) (today_year : ℤ)
    (st : SolarTermCacheState) :
    ((get_solar_term_info calc_terms reminder today_year st).2.2 = true ↔
      st.last_solar_term_calc_year ≠ some today_year) ∧
    (get_solar_term_info calc_terms reminder today_year
        st).2.1.last_solar_term_calc_year = some today_year ∧
    ((get_solar_term_info calc_terms reminder today_year
        st).2.1.current_solar_terms = [] →
      (get_solar_term_info calc_terms reminder today_year st).1 = "") ∧
    (∀ y : ℤ, (get_solar_term_info calc_terms reminder y
        (get_solar_term_info calc_terms reminder today_year st).2.1).2.2 = true ↔
      y ≠ today_year) := by
  have hnext : ∀ (st2 : SolarTermCacheState),
      st2.last_solar_term_calc_year = some today_year →
      ∀ y : ℤ, ((get_solar_term_info calc_terms reminder y st2).2.2 = true ↔
        y ≠ today_year) := by
    intro st2 h2 y
    rw [get_solar_term_info]
    by_cases hy : st2.last_solar_term_calc_year = some y
    · rw [if_pos hy]
      rw [h2] at hy
      have hyy : today_year = y := Option.some_injective ℤ hy
      simp [hyy]
    · rw [if_neg hy]
      rw [h2] at hy
      have hyy : y ≠ today_year := fun he => hy (by rw [he])
      simp [hyy]
  by_cases h : st.last_solar_term_calc_year = some today_year
  · have hres : get_solar_term_info calc_terms reminder today_year st =
        (if st.current_solar_terms ≠ [] then reminder st.current_solar_terms else (""),
          st, false) := by
      rw [get_solar_term_info, if_pos h]
    rw [hres]
    refine ⟨by simp [h], h, fun he => ?_, ?_⟩
    · exact if_neg (fun hne => hne he)
    · exact hnext st h
  · have hres : get_solar_term_info calc_terms reminder today_year st =
        (if calc_terms today_year ≠ [] then reminder (calc_terms today_year) else (""),
          ⟨calc_terms today_year, some today_year⟩, true) := by
      rw [get_solar_term_info, if_neg h]
    rw [hres]
    refine ⟨by simp [h], rfl, fun he => ?_, ?_⟩
    · exact if_neg (fun hne => hne he)
    · exact hnext ⟨calc_terms today_year, some today_year⟩ rfl

theorem get_solar_term_info_cache_spec_witness :
    ((none : Option ℤ) ≠ some 2025) ∧
      (get_solar_term_info (fun _ => [("春分", (5 : ℚ))]) (fun _ => "info") 2025
        ⟨[], none⟩).2.2 = true :=
  ⟨by decide,
    (get_solar_term_info_cache_spec (fun _ => [("春分", (5 : ℚ))]) (fun _ => "info")
      2025 ⟨[], none⟩).1.2 (by decide)⟩

/-! ### EventScheduler (`_maybe_fire_event`, source lines 1416–1461) -/

/-- The four event kinds tracked by `_maybe_fire_event`: the source keys them
by the string prefixes `moonrise-`, `moonset-`, `sunrise-`, `sunset-`. -/
inductive EventKind where
  | moonrise
  | moonset
  | sunrise
  | sunset
  deriving DecidableEq

/-- A fired-event key.  The source uses the string
`f"{kind}-{instant:%Y-%m-%d %H:%M:%S}"`; since the four kind prefixes are
distinct and `strftime` truncates the instant to whole seconds (instants
are modern, hence non-negative, times), the key is modelled as the kind
paired with the floor of the instant in seconds. -/
abbrev EventKey := EventKind × ℤ

/-- Key of a (kind, scheduled instant) pair. -/
def event_key (k : EventKind) (t : ℚ) : EventKey := (k, ⌊t⌋)

/-- Model of `fire_once` (source lines 1418–1426) applied to one tracked event
(source lines 1428–1461): skip when the scheduled instant is unknown or
`now` is outside the ±1.5 s tolerance (`should_fire`); otherwise, when the
key has not fired yet, record it and emit one notification.  Returns the
emitted keys together with the new fired-key set. -/
def fire_step (now : ℚ) (k : EventKind) (ev_dt : Option ℚ) (fired : List EventKey) :
    List EventKey × List EventKey :=
  match ev_dt with
  | none => ([], fired)
  | some t =>
      if |now - t| ≤ 3 / 2 then
        if event_key k t ∈ fired then ([], fired)
        else ([event_key k t], event_key k t :: fired)
      else ([], fired)

/-- Run `fire_step` over a list of tracked (kind, instant) pairs, threading
the fired-key set and concatenating the emissions. -/
def fire_steps (now : ℚ) : List (EventKind × Option ℚ) → List EventKey →
    List EventKey × List EventKey
  | [], fired => ([], fired)
  | (k, ev) :: rest, fired =>
      let r1 := fire_step now k ev fired
      let r2 := fire_steps now rest r1.2
      (r1.1 ++ r2.1, r2.2)

/-- The tracked next-event instants (`self.next_*_dt`), `none` when
unknown. -/
structure EventInstants where
  next_moonrise_dt : Option ℚ
  next_moonset_dt : Option ℚ
  next_sunrise_dt : Option ℚ
  next_sunset_dt : Option ℚ

/-- Model of `_maybe_fire_event` (source lines 1416–1461): one poll at local time
`now` processes moonrise, moonset, sunrise and sunset in order. -/
def maybe_fire_event (now : ℚ) (ev : EventInstants) (fired : List EventKey) :
    List EventKey × List EventKey :=
  fire_steps now
    [(.moonrise, ev.next_moonrise_dt), (.moonset, ev.next_moonset_dt),
     (.sunrise, ev.next_sunrise_dt), (.sunset, ev.next_sunset_dt)] fired

/-- A sequence of once-per-second driver polls, each with its own current
time and tracked instants, threading the fired-key set. -/
def poll_events : List (ℚ × EventInstants) → List EventKey →
    List EventKey × List EventKey
  | [], fired => ([], fired)
  | (now, ev) :: rest, fired =>
      let r1 := maybe_fire_event now ev fired
      let r2 := poll_events rest r1.2
      (r1.1 ++ r2.1, r2.2)

theorem fire_step_state (now : ℚ) (k : EventKind) (ev : Option ℚ)
    (fired : List EventKey) :
    (∀ x ∈ fired, x ∈ (fire_step now k ev fired).2) ∧
    (∀ x ∈ (fire_step now k ev fired).1, x ∈ (fire_step now k ev fired).2 ∧ x ∉ fired) ∧
    (fire_step now k ev fired).1.Nodup := by
  rcases ev with _ | t
  · simp [fire_step]
  · simp only [fire_step]
    by_cases h : |now - t| ≤ 3 / 2
    · rw [if_pos h]
      by_cases hm : event_key k t ∈ fired
      · rw [if_pos hm]
        simp
      · rw [if_neg hm]
        refine ⟨fun x hx => List.mem_cons_of_mem _ hx, ?_, by simp⟩
        intro x hx
        rw [List.mem_singleton] at hx
        subst hx
        exact ⟨List.mem_cons_self _ _, hm⟩
    · rw [if_neg h]
      simp

theorem fire_steps_state (now : ℚ) :
    ∀ (evs : List (EventKind × Option ℚ)) (fired : List EventKey),
      (∀ x ∈ fired, x ∈ (fire_steps now evs fired).2) ∧
      (∀ x ∈ (fire_steps now evs fired).1,
        x ∈ (fire_steps now evs fired).2 ∧ x ∉ fired) ∧
      (fire_steps now evs fired).1.Nodup := by
  intro evs
  induction evs with
  | nil => intro fired; simp [fire_steps]
  | cons p rest ih =>
    intro fired
    obtain ⟨k, ev⟩ := p
    obtain ⟨hs1, hs2, hs3⟩ := fire_step_state now k ev fired
    obtain ⟨hr1, hr2, hr3⟩ := ih (fire_step now k ev fired).2
    rw [fire_steps]
    refine ⟨fun x hx => hr1 x (hs1 x hx), ?_, ?_⟩
    · intro x hx
      rcases List.mem_append.1 hx with hx1 | hx2
      · exact ⟨hr1 x (hs2 x hx1).1, (hs2 x hx1).2⟩
      · exact ⟨(hr2 x hx2).1, fun hmem => (hr2 x hx2).2 (hs1 x hmem)⟩
    · exact List.Nodup.append hs3 hr3
        (fun x hx1 hx2 => (hr2 x hx2).2 ((hs2 x hx1).1))

theorem poll_events_state :
    ∀ (polls : List (ℚ × EventInstants)) (fired : List EventKey),
      (∀ x ∈ fired, x ∈ (poll_events polls fired).2) ∧
      (∀ x ∈ (poll_events polls fired).1,
        x ∈ (poll_events polls fired).2 ∧ x ∉ fired) ∧
      (poll_events polls fired).1.Nodup := by
  intro polls
  induction polls with
  | nil => intro fired; simp [poll_events]
  | cons p rest ih =>
    intro fired
    obtain ⟨now, ev⟩ := p
    obtain ⟨hs1, hs2, hs3⟩ := fire_steps_state now
      [(.moonrise, ev.next_moonrise_dt), (.moonset, ev.next_moonset_dt),
       (.sunrise, ev.next_sunrise_dt), (.sunset, ev.next_sunset_dt)] fired
    obtain ⟨hr1, hr2, hr3⟩ := ih (maybe_fire_event now ev fired).2
    rw [poll_events]
    simp only [maybe_fire_event] at *
    refine ⟨fun x hx => hr1 x (hs1 x hx), ?_, ?_⟩
    · intro x hx
      rcases List.mem_append.1 hx with hx1 | hx2
      · exact ⟨hr1 x (hs2 x hx1).1, (hs2 x hx1).2⟩
      · exact ⟨(hr2 x hx2).1, fun hmem => (hr2 x hx2).2 (hs1 x hmem)⟩
    · exact List.Nodup.append hs3 hr3
        (fun x hx1 hx2 => (hr2 x hx2).2 ((hs2 x hx1).1))

/-- C1.  A notification for a given (kind, scheduledInstant) key is emitted
by a poll exactly when `|now − scheduledInstant| ≤ 1.5 s` and the key is not
yet in the fired-key set; an emission adds the key to the set; and across any
sequence of polls, starting from any fired-key set, the emitted keys are
pairwise distinct and none was already in the initial set — each (body,
kind, instant) notification fires at most once, so later polls inside the
±1.5 s window of the same instant emit nothing. -/
theorem event_fired_at_most_once :
    (∀ (now t : ℚ) (k : EventKind) (fired : List EventKey),
      (fire_step now k (some t) fired).1 =
        if |now - t| ≤ 3 / 2 ∧ event_key k t ∉ fired then [event_key k t] else []) ∧
    (∀ (now t : ℚ) (k : EventKind) (fired : List EventKey),
      (fire_step now k (some t) fired).1 ≠ [] →
        event_key k t ∈ (fire_step now k (some t) fired).2) ∧
    (∀ (polls : List (ℚ × EventInstants)) (fired : List EventKey),
      (poll_events polls fired).1.Nodup ∧
        ∀ x ∈ (poll_events polls fired).1, x ∉ fired) := by
  have hchar : ∀ (now t : ℚ) (k : EventKind) (fired : List EventKey),
      (fire_step now k (some t) fired).1 =
        if |now - t| ≤ 3 / 2 ∧ event_key k t ∉ fired then [event_key k t] else [] := by
    intro now t k fired
    simp only [fire_step]
    by_cases h : |now - t| ≤ 3 / 2
    · rw [if_pos h]
      by_cases hm : event_key k t ∈ fired
      · rw [if_pos hm, if_neg (fun hc => hc.2 hm)]
      · rw [if_neg hm, if_pos ⟨h, hm⟩]
    · rw [if_neg h, if_neg (fun hc => h hc.1)]
  refine ⟨hchar, ?_, ?_⟩
  · intro now t k fired hne
    simp only [fire_step] at *
    by_cases h : |now - t| ≤ 3 / 2
    · rw [if_pos h] at *
      by_cases hm : event_key k t ∈ fired
      · rw [if_pos hm] at hne
        exact absurd rfl hne
      · rw [if_neg hm] at *
        exact List.mem_cons_self _ _
    · rw [if_neg h] at hne
      exact absurd rfl hne
  · intro polls fired
    obtain ⟨_, h2, h3⟩ := poll_events_state polls fired
    exact ⟨h3, fun x hx => (h2 x hx).2⟩

theorem event_fired_at_most_once_witness :
    (poll_events [((0 : ℚ), ⟨none, none, some (1 / 2), none⟩),
        ((1 : ℚ), ⟨none, none, some (1 / 2), none⟩)] []).1.Nodup ∧
      ∀ x ∈ (poll_events [((0 : ℚ), ⟨none, none, some (1 / 2), none⟩),
        ((1 : ℚ), ⟨none, none, some (1 / 2), none⟩)] []).1,
          x ∉ ([] : List EventKey) :=
  event_fired_at_most_once.2.2 _ _

/-! ### SolarTermCalculator scan (`calculate_solar_terms`, source lines
216–305).  The Skyfield queries are abstracted: `sun_lon_at` is the noon
sample of the sun's ecliptic longitude for a day of the scan (`none` when
the sample raised `ValueError`), `find_solar_term_time` the bisection
refinement, `yearOf` the calendar year of a refined instant; instants are
rationals (absolute time). -/

/-- One target of the inner loop of the coarse scan (source lines 257–287):
on a detected crossing, refine, and append the (name, instant) entry when the
refined instant exists, its calendar year is the requested one, and the name
has not been recorded yet. -/
def scan_target_step (yearOf : ℚ → ℤ) (find_solar_term_time : ℕ → ℚ → Option ℚ)
    (year : ℤ) (day : ℕ) (prev cur : ℚ)
    (acc2 : List (String × ℚ)) (tl : ℚ × String) : List (String × ℚ) :=
  if solar_term_crossed prev cur tl.1 then
    match find_solar_term_time day tl.1 with
    | some pt =>
        if yearOf pt = year then
          if acc2.any (fun e => decide (e.1 = tl.2)) then acc2
          else acc2 ++ [(tl.2, pt)]
        else acc2
    | none => acc2
  else acc2

/-- The per-day-pair loop over the 24 targets (source lines 256–287). -/
def scan_day_pair (yearOf : ℚ → ℤ) (find_solar_term_time : ℕ → ℚ → Option ℚ)
    (year : ℤ) (day : ℕ) (prev cur : ℚ) (acc : List (String × ℚ)) :
    List (String × ℚ) :=
  SOLAR_TERM_LONGITUDES.foldl
    (scan_target_step yearOf find_solar_term_time year day prev cur) acc

/-- The daily loop of the coarse scan (source lines 246–294): track the
previous day's longitude; a failed day leaves `prev_lon` unchanged, as in
the source's `except ValueError` path. -/
def scan_days (sun_lon_at : ℕ → Option ℚ) (yearOf : ℚ → ℤ)
    (find_solar_term_time : ℕ → ℚ → Option ℚ) (year : ℤ) :
    List ℕ → Option ℚ → List (String × ℚ) → List (String × ℚ)
  | [], _, acc => acc
  | d :: rest, prev_lon, acc =>
      match sun_lon_at d with
      | none => scan_days sun_lon_at yearOf find_solar_term_time year rest prev_lon acc
      | some sun_lon =>
          match prev_lon with
          | none =>
              scan_days sun_lon_at yearOf find_solar_term_time year rest
                (some sun_lon) acc
          | some p =>
              scan_days sun_lon_at yearOf find_solar_term_time year rest
                (some sun_lon)
                (scan_day_pair yearOf find_solar_term_time year d p sun_lon acc)

/-- Model of `calculate_solar_terms` (source lines 216–305): the coarse scan over the
day list starting with no previous sample and an empty result, followed by
the chronological sort (source line 297). -/
def calculate_solar_terms (sun_lon_at : ℕ → Option ℚ) (yearOf : ℚ → ℤ)
    (find_solar_term_time : ℕ → ℚ → Option ℚ) (year : ℤ) (days : List ℕ) :
    List (String × ℚ) :=
  List.insertionSort (fun a b => a.2 ≤ b.2)
    (scan_days sun_lon_at yearOf find_solar_term_time year days none [])

instance : DecidableRel (fun a b : String × ℚ => a.2 ≤ b.2) :=
  fun a b => inferInstanceAs (Decidable (a.2 ≤ b.2))

instance : IsTotal (String × ℚ) (fun a b => a.2 ≤ b.2) :=
  ⟨fun a b => le_total a.2 b.2⟩

instance : IsTrans (String × ℚ) (fun a b => a.2 ≤ b.2) :=
  ⟨fun _ _ _ h h2 => le_trans h h2⟩

theorem scan_target_step_wf (yearOf : ℚ → ℤ)
    (find_solar_term_time : ℕ → ℚ → Option ℚ) (year : ℤ) (day : ℕ)
    (prev cur : ℚ) (acc : List (String × ℚ)) (tl : ℚ × String)
    (h1 : (acc.map Prod.fst).Nodup) (h2 : ∀ e ∈ acc, yearOf e.2 = year) :
    (((scan_target_step yearOf find_solar_term_time year day prev cur acc tl).map
        Prod.fst).Nodup) ∧
      ∀ e ∈ scan_target_step yearOf find_solar_term_time year day prev cur acc tl,
        yearOf e.2 = year := by
  rw [scan_target_step]
  split
  · split
    · split
      · split
        · exact ⟨h1, h2⟩
        · rename_i pt hyear hany
          rw [List.map_append]
          refine ⟨?_, ?_⟩
          · refine List.Nodup.append h1 (by simp) ?_
            intro x hx1 hx2
            simp only [List.map_cons, List.map_nil, List.mem_singleton] at hx2
            subst hx2
            obtain ⟨e, he, hefst⟩ := List.mem_map.1 hx1
            have : ∀ e ∈ acc, ¬(e.1 = tl.2) := by
              intro e2 he2
              by_contra hc
              exact hany (List.any_eq_true.2 ⟨e2, he2, by simp [hc]⟩)
            exact this e he hefst
          · intro e he
            rcases List.mem_append.1 he with hl | hr
            · exact h2 e hl
            · rw [List.mem_singleton] at hr
              subst hr
              exact hyear
      · exact ⟨h1, h2⟩
    · exact ⟨h1, h2⟩
  · exact ⟨h1, h2⟩

theorem scan_day_pair_wf (yearOf : ℚ → ℤ)
    (find_solar_term_time : ℕ → ℚ → Option ℚ) (year : ℤ) (day : ℕ)
    (prev cur : ℚ) :
    ∀ (targets : List (ℚ × String)) (acc : List (String × ℚ)),
      (acc.map Prod.fst).Nodup → (∀ e ∈ acc, yearOf e.2 = year) →
      (((targets.foldl
          (scan_target_step yearOf find_solar_term_time year day prev cur)
          acc).map Prod.fst).Nodup) ∧
        ∀ e ∈ targets.foldl
            (scan_target_step yearOf find_solar_term_time year day prev cur) acc,
          yearOf e.2 = year := by
  intro targets
  induction targets with
  | nil =>
    intro acc h1 h2
    exact ⟨h1, h2⟩
  | cons t ts ih =>
    intro acc h1 h2
    rw [List.foldl_cons]
    obtain ⟨g1, g2⟩ :=
      scan_target_step_wf yearOf find_solar_term_time year day prev cur acc t h1 h2
    exact ih _ g1 g2

theorem scan_days_wf (sun_lon_at : ℕ → Option ℚ) (yearOf : ℚ → ℤ)
    (find_solar_term_time : ℕ → ℚ → Option ℚ) (year : ℤ) :
    ∀ (days : List ℕ) (prev_lon : Option ℚ) (acc : List (String × ℚ)),
      (acc.map Prod.fst).Nodup → (∀ e ∈ acc, yearOf e.2 = year) →
      (((scan_days sun_lon_at yearOf find_solar_term_time year days prev_lon
          acc).map Prod.fst).Nodup) ∧
        ∀ e ∈ scan_days sun_lon_at yearOf find_solar_term_time year days prev_lon acc,
          yearOf e.2 = year := by
  intro days
  induction days with
  | nil =>
    intro p acc h1 h2
    rw [scan_days]
    exact ⟨h1, h2⟩
  | cons d rest ih =>
    intro p acc h1 h2
    rw [scan_days]
    cases hs : sun_lon_at d with
    | none => exact ih p acc h1 h2
    | some lonv =>
      cases p with
      | none => exact ih (some lonv) acc h1 h2
      | some pl =>
        obtain ⟨g1, g2⟩ := scan_day_pair_wf yearOf find_solar_term_time year d pl
          lonv SOLAR_TERM_LONGITUDES acc h1 h2
        exact ih (some lonv) _ g1 g2

/-- C4.  For every behaviour of the abstracted ephemeris sampling and
refinement, the solar-term list returned by `calculate_solar_terms` is
well-formed: its names are pairwise distinct (each of the 24 names occurs at
most once), every recorded instant's calendar year is the requested year
(refined instants outside the year are discarded), and the list is sorted
chronologically by instant. -/
theorem calculate_solar_terms_wellformed (sun_lon_at : ℕ → Option ℚ)
    (yearOf : ℚ → ℤ) (find_solar_term_time : ℕ → ℚ → Option ℚ) (year : ℤ)
    (days : List ℕ) :
    (((calculate_solar_terms sun_lon_at yearOf find_solar_term_time year
        days).map Prod.fst).Nodup) ∧
    (∀ e ∈ calculate_solar_terms sun_lon_at yearOf find_solar_term_time year days,
      yearOf e.2 = year) ∧
    (calculate_solar_terms sun_lon_at yearOf find_solar_term_time year
        days).Sorted (fun a b => a.2 ≤ b.2) := by
  obtain ⟨h1, h2⟩ := scan_days_wf sun_lon_at yearOf find_solar_term_time year days
    none [] (by simp) (by simp)
  have hperm : List.Perm
      (calculate_solar_terms sun_lon_at yearOf find_solar_term_time year days)
      (scan_days sun_lon_at yearOf find_solar_term_time year days none []) :=
    List.perm_insertionSort _ _
  refine ⟨?_, ?_, ?_⟩
  · exact ((hperm.map Prod.fst).nodup_iff).2 h1
  · intro e he
    exact h2 e (hperm.subset he)
  · exact List.sorted_insertionSort _ _

theorem calculate_solar_terms_wellformed_witness :
    (((calculate_solar_terms (fun d => some (d : ℚ)) (fun _ => 2025)
        (fun _ _ => some 100) 2025 [0, 1]).map Prod.fst).Nodup) ∧
      (calculate_solar_terms (fun d => some (d : ℚ)) (fun _ => 2025)
        (fun _ _ => some 100) 2025 [0, 1]).Sorted (fun a b => a.2 ≤ b.2) :=
  ⟨(calculate_solar_terms_wellformed (fun d => some (d : ℚ)) (fun _ => 2025)
      (fun _ _ => some 100) 2025 [0, 1]).1,
    (calculate_solar_terms_wellformed (fun d => some (d : ℚ)) (fun _ => 2025)
      (fun _ _ => some 100) 2025 [0, 1]).2.2⟩

end GpsAstro
